import Mathlib

/-!
Verification of the TowerTech society-management server domain logic.

The definitions below are a shallow embedding of the Express/SQLite request
handlers in `server.ts` (current version): each relational table becomes a
Lean list of rows, each handler becomes a function from the store to an API
result paired with the updated store, and SQL timestamps become natural
number ticks supplied by the caller.  JS number arithmetic in the budget
prediction is modelled exactly over the rationals.
-/

namespace TowerTech

/-- Row of the flats table (server.ts schema, flats). -/
structure Flat where
  id : String
  tower_id : String
  floor : Int
  flat_number : Int
  owner_name : String
  maintenance_status : String
deriving DecidableEq, Repr

/-- Row of the bills table (server.ts schema, bills); status defaults to Unpaid. -/
structure Bill where
  id : Nat
  flat_id : String
  amount : Int
  month : String
  due_date : String
  status : String
deriving DecidableEq, Repr

/-- Row of the complaints table; status defaults to Pending. -/
structure Complaint where
  flat_id : String
  user_id : Nat
  title : String
  description : String
  category : String
  status : String
  created_at : Nat
deriving DecidableEq, Repr

/-- Row of the alerts table. -/
structure Alert where
  tower : String
  title : String
  message : String
  severity : String
  created_at : Nat
deriving DecidableEq, Repr

/-- Row of the events table. -/
structure Event where
  title : String
  description : String
  date : String
  created_at : Nat
deriving DecidableEq, Repr

/-- Row of the bookings table; status defaults to Confirmed. -/
structure Booking where
  flat_id : String
  user_id : Nat
  amenity : String
  date : String
  time_slot : String
  status : String
deriving DecidableEq, Repr

/-- Row of the visitors table; status defaults to In, exit_time is nullable. -/
structure Visitor where
  id : Nat
  name : String
  tower : String
  flat_id : String
  entry_time : Nat
  exit_time : Option Nat
  status : String
deriving DecidableEq, Repr

/-- Row of the expenses table. -/
structure Expense where
  category : String
  amount : Int
  date : String
  description : String
deriving DecidableEq, Repr

/-- Row of the activity_logs table (logActivity in server.ts). -/
structure LogEntry where
  user_id : Nat
  action : String
  details : String
  timestamp : Nat
deriving DecidableEq, Repr

/-- The SQLite database as a whole: one list per table, plus the AUTOINCREMENT
counters for the two tables whose generated ids are consumed by handlers. -/
structure Store where
  flats : List Flat
  bills : List Bill
  complaints : List Complaint
  alerts : List Alert
  events : List Event
  bookings : List Booking
  visitors : List Visitor
  expenses : List Expense
  activity_logs : List LogEntry
  nextBillId : Nat
  nextVisitorId : Nat
deriving DecidableEq, Repr

/-- A store with every table empty, counters at 1 (SQLite AUTOINCREMENT start). -/
def emptyStore : Store :=
  { flats := [], bills := [], complaints := [], alerts := [], events := []
    bookings := [], visitors := [], expenses := [], activity_logs := []
    nextBillId := 1, nextVisitorId := 1 }

/-- Outcome of one request handler: the HTTP JSON response reduced to its
success flag and error message (res.json success true, or status 400/404 with
a message). -/
inductive ApiResult where
  | success
  | failure (message : String)
deriving DecidableEq, Repr

/-- INSERT INTO activity_logs (user_id, action, details), server.ts logActivity. -/
def logActivity (userId : Nat) (action details : String) (t : Nat) (s : Store) : Store :=
  { s with activity_logs := s.activity_logs ++ [⟨userId, action, details, t⟩] }

/-- One INSERT INTO bills (flat_id, amount, month, due_date); status takes the
schema default Unpaid and id the AUTOINCREMENT counter. -/
def insertBill (flatId : String) (amount : Int) (month dueDate : String) (s : Store) : Store :=
  { s with bills := s.bills ++ [⟨s.nextBillId, flatId, amount, month, dueDate, "Unpaid"⟩]
           nextBillId := s.nextBillId + 1 }

/-- The transaction body of POST /api/admin/generate-bills: one insertBill per
flat, in list order. -/
def insertBillsLoop (amount : Int) (month dueDate : String) : List Flat → Store → Store
  | [], s => s
  | f :: fs, s => insertBillsLoop amount month dueDate fs (insertBill f.id amount month dueDate s)

/-- POST /api/admin/generate-bills (server.ts lines 587 to 606): reject with
status 400 when any bill row already carries the requested month, otherwise
run the insert transaction over all flats and log the batch. -/
def generateBills (adminId : Nat) (month : String) (amount : Int) (dueDate : String)
    (t : Nat) (s : Store) : ApiResult × Store :=
  if s.bills.any (fun b => b.month == month) then
    (.failure "Bills already generated for this month", s)
  else
    (.success, logActivity adminId "GENERATE_BILLS" (String.append "Generated bills for " month) t
      (insertBillsLoop amount month dueDate s.flats s))

/-- UPDATE flats SET maintenance_status = Paid WHERE id = flatId, applied rowwise. -/
def setFlatPaid (flatId : String) (f : Flat) : Flat :=
  if f.id = flatId then { f with maintenance_status := "Paid" } else f

/-- UPDATE bills SET status = Paid WHERE id = billId, applied rowwise. -/
def setBillPaid (billId : Nat) (b : Bill) : Bill :=
  if b.id = billId then { b with status := "Paid" } else b

/-- Detail string logged by the mark-paid handler. -/
def markPaidDetails (flatId : String) (billId : Nat) : String :=
  String.append "Marked bill " (String.append (toString billId)
    (String.append " for flat " (String.append flatId " as paid")))

/-- POST /api/admin/mark-paid (server.ts lines 608 to 615): unconditionally
updates the matching flat row and the matching bill row, logs, and responds
with success; there is no existence check and no failure path. -/
def markPaid (adminId : Nat) (flatId : String) (billId : Nat) (t : Nat) (s : Store) :
    ApiResult × Store :=
  (.success, logActivity adminId "MARK_PAID" (markPaidDetails flatId billId) t
    { s with flats := s.flats.map (setFlatPaid flatId)
             bills := s.bills.map (setBillPaid billId) })

/-- The WHERE clause of the booking conflict query: rows whose amenity, date
and time_slot all equal the requested triple. -/
def tripleMatch (amenity date timeSlot : String) (b : Booking) : Bool :=
  b.amenity == amenity && b.date == date && b.time_slot == timeSlot

/-- POST /api/resident/book (server.ts lines 664 to 674): SELECT a booking
with the same (amenity, date, time_slot) triple; on a hit respond 400 with no
write, otherwise INSERT one booking row (status defaults to Confirmed). -/
def book (userId : Nat) (flatId amenity date timeSlot : String) (t : Nat) (s : Store) :
    ApiResult × Store :=
  match s.bookings.find? (tripleMatch amenity date timeSlot) with
  | some _ => (.failure "Slot already booked", s)
  | none =>
    (.success, logActivity userId "BOOK_AMENITY"
      (String.append "Booked " (String.append amenity (String.append " for " date))) t
      { s with bookings := s.bookings ++ [⟨flatId, userId, amenity, date, timeSlot, "Confirmed"⟩] })

/-- POST /api/resident/complaints: INSERT one complaint row, status default Pending. -/
def raiseComplaint (userId : Nat) (flatId title description category : String) (t : Nat)
    (s : Store) : ApiResult × Store :=
  (.success, logActivity userId "RAISE_COMPLAINT" (String.append "Raised complaint: " title) t
    { s with complaints := s.complaints ++ [⟨flatId, userId, title, description, category, "Pending", t⟩] })

/-- POST /api/admin/alerts: INSERT one alert row. -/
def createAlert (adminId : Nat) (tower title message severity : String) (t : Nat)
    (s : Store) : ApiResult × Store :=
  (.success, logActivity adminId "CREATE_ALERT" (String.append "Created alert: " title) t
    { s with alerts := s.alerts ++ [⟨tower, title, message, severity, t⟩] })

/-- POST /api/admin/events: INSERT one event row. -/
def createEvent (adminId : Nat) (title description date : String) (t : Nat)
    (s : Store) : ApiResult × Store :=
  (.success, logActivity adminId "CREATE_EVENT" (String.append "Created event: " title) t
    { s with events := s.events ++ [⟨title, description, date, t⟩] })

/-- POST /api/security/visitor-entry (server.ts lines 682 to 687): INSERT one
visitor row; entry_time defaults to the current timestamp, exit_time to NULL
and status to In. -/
def recordEntry (userId : Nat) (name tower flatId : String) (t : Nat) (s : Store) :
    ApiResult × Store :=
  (.success, logActivity userId "VISITOR_ENTRY"
    (String.append "Recorded entry for " (String.append name (String.append " to " flatId))) t
    { s with visitors := s.visitors ++ [⟨s.nextVisitorId, name, tower, flatId, t, none, "In"⟩]
             nextVisitorId := s.nextVisitorId + 1 })

/-- UPDATE visitors SET exit_time = now, status = Out WHERE id = vid, rowwise. -/
def setVisitorOut (vid : Nat) (t : Nat) (v : Visitor) : Visitor :=
  if v.id = vid then { v with exit_time := some t, status := "Out" } else v

/-- POST /api/security/visitor-exit (server.ts lines 689 to 694): set the exit
timestamp and the Out status together on the matching visitor row. -/
def recordExit (userId : Nat) (vid : Nat) (t : Nat) (s : Store) : ApiResult × Store :=
  (.success, logActivity userId "VISITOR_EXIT"
    (String.append "Recorded exit for visitor ID " (toString vid)) t
    { s with visitors := s.visitors.map (setVisitorOut vid t) })

/-- Bytewise (code point) strict order on character lists, the order SQLite
applies to TEXT columns under the default BINARY collation. -/
def strLtB : List Char → List Char → Bool
  | [], [] => false
  | [], _ :: _ => true
  | _ :: _, [] => false
  | a :: as, b :: bs =>
    if a.val.toNat < b.val.toNat then true
    else if b.val.toNat < a.val.toNat then false
    else strLtB as bs

/-- Reflexive closure of strLtB: the TEXT column order used by ORDER BY. -/
def strLeB : List Char → List Char → Bool
  | [], _ => true
  | _ :: _, [] => false
  | a :: as, b :: bs =>
    if a.val.toNat < b.val.toNat then true
    else if b.val.toNat < a.val.toNat then false
    else strLeB as bs

/-- Expense rows sorted most-recent-first: e1 precedes e2 when e2.date is at
most e1.date in TEXT order (ORDER BY date DESC). -/
def expDateDesc (e1 e2 : Expense) : Prop := strLeB e2.date.data e1.date.data = true

instance : DecidableRel expDateDesc := fun _ _ => instDecidableEqBool _ _

/-- Visitor rows sorted most-recent-first (ORDER BY entry_time DESC). -/
def entryDesc (v1 v2 : Visitor) : Prop := v2.entry_time ≤ v1.entry_time

instance : DecidableRel entryDesc := fun _ _ => Nat.decLe _ _

instance : IsTotal Visitor entryDesc := ⟨fun a b => Nat.le_total b.entry_time a.entry_time⟩

instance : IsTrans Visitor entryDesc := ⟨fun _ _ _ h1 h2 => Nat.le_trans h2 h1⟩

/-- SELECT amount FROM expenses ORDER BY date DESC. -/
def expensesByDateDesc (s : Store) : List Expense :=
  List.insertionSort expDateDesc s.expenses

/-- GET /api/security/visitors (server.ts lines 677 to 680): SELECT * FROM
visitors ORDER BY entry_time DESC, with no WHERE clause. -/
def listActive (s : Store) : List Visitor :=
  List.insertionSort entryDesc s.visitors

/-- Response body of GET /api/admin/stats. -/
structure Stats where
  totalFlats : Nat
  paidFlats : Nat
  pendingComplaints : Nat
  activeVisitors : Nat
  totalCollected : Int
  totalPending : Int
deriving DecidableEq, Repr

/-- SQL aggregate SUM: NULL over the empty row set, the sum otherwise. -/
def sqlSum : List Int → Option Int
  | [] => none
  | x :: xs => some ((x :: xs).foldl (fun acc y => acc + y) 0)

/-- GET /api/admin/stats (server.ts lines 541 to 559): four COUNT queries and
two SUM queries, each NULL sum coalesced to 0 in the response. -/
def computeStats (s : Store) : Stats :=
  { totalFlats := s.flats.length
    paidFlats := (s.flats.filter (fun f => f.maintenance_status == "Paid")).length
    pendingComplaints := (s.complaints.filter (fun c => !(c.status == "Resolved"))).length
    activeVisitors := (s.visitors.filter (fun v => v.status == "In")).length
    totalCollected := (sqlSum ((s.bills.filter (fun b => b.status == "Paid")).map (fun b => b.amount))).getD 0
    totalPending := (sqlSum ((s.bills.filter (fun b => b.status == "Unpaid")).map (fun b => b.amount))).getD 0 }

/-- Response body of GET /api/admin/ai-prediction, with the synthetic random
confidence field omitted; growth is carried exactly as a rational. -/
structure PredictionResponse where
  suggestion : String
  growth : ℚ
  recentExpense : Option Int
  previousExpense : Option Int
deriving DecidableEq, Repr

/-- Suggestion text for growth above 10 percent. -/
def suggestionLarge : String := "Expenses rose >10%. Suggest increasing maintenance by ₹200."

/-- Suggestion text for growth above 5 and at most 10 percent. -/
def suggestionSmall : String := "Expenses rising steadily. Consider a ₹100 increase next quarter."

/-- Suggestion text for growth of at most 5 percent. -/
def suggestionMaintain : String := "Maintain current maintenance fee."

/-- GET /api/admin/ai-prediction (server.ts lines 561 to 585): take the six
most recent expenses by date descending; with fewer than two rows answer the
soft insufficient-data variant, otherwise compute the two-point growth
percentage and pick the suggestion band. -/
def predictBudget (s : Store) : PredictionResponse :=
  let expenses := (expensesByDateDesc s).take 6
  match expenses with
  | e0 :: e1 :: _ =>
    let recent := e0.amount
    let previous := e1.amount
    let growth : ℚ := ((recent : ℚ) - (previous : ℚ)) / (previous : ℚ) * 100
    let suggestion :=
      if 10 < growth then suggestionLarge
      else if 5 < growth then suggestionSmall
      else suggestionMaintain
    { suggestion := suggestion, growth := growth
      recentExpense := some recent, previousExpense := some previous }
  | _ =>
    { suggestion := "Insufficient data", growth := 0
      recentExpense := none, previousExpense := none }

/-- One state-changing request, with all its JSON-body fields and its arrival
time; read-only endpoints (stats, listings, prediction) change nothing and are
modelled as plain functions below. -/
inductive Op where
  | generateBills (adminId : Nat) (month : String) (amount : Int) (dueDate : String) (t : Nat)
  | markPaid (adminId : Nat) (flatId : String) (billId : Nat) (t : Nat)
  | book (userId : Nat) (flatId amenity date timeSlot : String) (t : Nat)
  | raiseComplaint (userId : Nat) (flatId title description category : String) (t : Nat)
  | createAlert (adminId : Nat) (tower title message severity : String) (t : Nat)
  | createEvent (adminId : Nat) (title description date : String) (t : Nat)
  | recordEntry (userId : Nat) (name tower flatId : String) (t : Nat)
  | recordExit (userId : Nat) (visitorId : Nat) (t : Nat)
deriving DecidableEq, Repr

/-- Database state after handling one request: the store component of the
handler result (an error response leaves the database untouched). -/
def applyOp (s : Store) : Op → Store
  | .generateBills a m amt d t => (generateBills a m amt d t s).2
  | .markPaid a f b t => (markPaid a f b t s).2
  | .book u f am d ts t => (book u f am d ts t s).2
  | .raiseComplaint u f ti de c t => (raiseComplaint u f ti de c t s).2
  | .createAlert a tw ti me se t => (createAlert a tw ti me se t s).2
  | .createEvent a ti de d t => (createEvent a ti de d t s).2
  | .recordEntry u n tw f t => (recordEntry u n tw f t s).2
  | .recordExit u v t => (recordExit u v t s).2

/-- Database state after a sequence of requests. -/
def run (s : Store) (ops : List Op) : Store := ops.foldl applyOp s

/-- Number of bill rows carrying a given cycle label. -/
def cycleBillCount (month : String) (s : Store) : Nat :=
  (s.bills.filter (fun b => b.month == month)).length

/-- The batch of bill rows the generate-bills transaction appends, starting
from a given AUTOINCREMENT counter value. -/
def billBatch (amount : Int) (month dueDate : String) : Nat → List Flat → List Bill
  | _, [] => []
  | n, f :: fs => ⟨n, f.id, amount, month, dueDate, "Unpaid"⟩ :: billBatch amount month dueDate (n + 1) fs

/-- Invariant behind the all-or-nothing billing batch: every cycle label is
carried either by no bill row or by one bill row per flat. -/
def noPartialBatch (s : Store) : Prop :=
  ∀ m, cycleBillCount m s = 0 ∨ cycleBillCount m s = s.flats.length

/-- Number of booking rows matching a given (amenity, date, time_slot) triple. -/
def tripleCount (amenity date timeSlot : String) (s : Store) : Nat :=
  (s.bookings.filter (tripleMatch amenity date timeSlot)).length

/-- Invariant enforced by the booking engine: every slot triple is held by at
most one booking row. -/
def bookingUnique (s : Store) : Prop :=
  ∀ amenity date timeSlot, tripleCount amenity date timeSlot s ≤ 1

/-- Invariant of the visitor ledger: status Out exactly when the exit
timestamp is set, status In exactly when it is null. -/
def visitorInv (s : Store) : Prop :=
  ∀ v ∈ s.visitors, (v.status = "Out" ↔ v.exit_time ≠ none) ∧ (v.status = "In" ↔ v.exit_time = none)

/-- A store holding a single flat and nothing else. -/
def oneFlatStore : Store :=
  { emptyStore with flats := [⟨"A-101", "A", 1, 1, "Rahul Sharma", "Unpaid"⟩] }

/-- A store holding one flat and one bill already labelled with cycle 2026-03. -/
def dupBillStore : Store :=
  { emptyStore with
    flats := [⟨"A-101", "A", 1, 1, "Rahul Sharma", "Unpaid"⟩]
    bills := [⟨1, "A-101", 1500, "2026-03", "2026-03-10", "Unpaid"⟩]
    nextBillId := 2 }

/-- A store holding one confirmed Gym booking. -/
def bookedStore : Store :=
  { emptyStore with
    bookings := [⟨"A-101", 3, "Gym", "2026-03-20", "06:00 AM - 08:00 AM", "Confirmed"⟩] }

/-- A store holding one visitor who has already exited. -/
def outVisitorStore : Store :=
  { emptyStore with
    visitors := [⟨1, "Vikram", "A", "A-101", 5, some 9, "Out"⟩]
    nextVisitorId := 2 }

/-- An expense row of 100000 dated January 2026. -/
def janExpense : Expense := ⟨"Maintenance", 100000, "2026-01-01", "January costs"⟩

/-- An expense row of 112000 dated February 2026. -/
def febExpense : Expense := ⟨"Maintenance", 112000, "2026-02-01", "February costs"⟩

/-- A store holding a single expense row. -/
def oneExpenseStore : Store := { emptyStore with expenses := [janExpense] }

/-- A store holding two expense rows, the more recent one 12 percent higher. -/
def twoExpenseStore : Store := { emptyStore with expenses := [janExpense, febExpense] }

theorem billBatch_length (amount : Int) (month dueDate : String) :
    ∀ (n : Nat) (fs : List Flat), (billBatch amount month dueDate n fs).length = fs.length := by
  intro n fs
  induction fs generalizing n with
  | nil => rfl
  | cons f fs ih => simp [billBatch, ih]

theorem billBatch_map_flat_id (amount : Int) (month dueDate : String) :
    ∀ (n : Nat) (fs : List Flat),
      (billBatch amount month dueDate n fs).map (fun b => b.flat_id) = fs.map (fun f => f.id) := by
  intro n fs
  induction fs generalizing n with
  | nil => rfl
  | cons f fs ih => simp [billBatch, ih]

theorem billBatch_mem (amount : Int) (month dueDate : String) :
    ∀ (n : Nat) (fs : List Flat), ∀ b ∈ billBatch amount month dueDate n fs,
      b.status = "Unpaid" ∧ b.amount = amount ∧ b.due_date = dueDate ∧ b.month = month := by
  intro n fs
  induction fs generalizing n with
  | nil => intro b hb; simp [billBatch] at hb
  | cons f fs ih =>
    intro b hb
    simp only [billBatch, List.mem_cons] at hb
    rcases hb with rfl | hb
    · exact ⟨rfl, rfl, rfl, rfl⟩
    · exact ih (n + 1) b hb

theorem billBatch_filter_month (amount : Int) (month dueDate : String) :
    ∀ (n : Nat) (fs : List Flat) (m : String),
      ((billBatch amount month dueDate n fs).filter (fun b => b.month == m)).length =
        if month = m then fs.length else 0 := by
  intro n fs
  induction fs generalizing n with
  | nil => intro m; simp [billBatch]
  | cons f fs ih =>
    intro m
    by_cases h : month = m
    · subst h; simp [billBatch, List.filter_cons, ih]
    · simp [billBatch, List.filter_cons, h, ih]

theorem insertBillsLoop_fields (amount : Int) (month dueDate : String) :
    ∀ (fs : List Flat) (s : Store),
      (insertBillsLoop amount month dueDate fs s).bills =
          s.bills ++ billBatch amount month dueDate s.nextBillId fs ∧
        (insertBillsLoop amount month dueDate fs s).flats = s.flats ∧
        (insertBillsLoop amount month dueDate fs s).bookings = s.bookings ∧
        (insertBillsLoop amount month dueDate fs s).visitors = s.visitors := by
  intro fs
  induction fs with
  | nil => intro s; simp [insertBillsLoop, billBatch]
  | cons f fs ih =>
    intro s
    have h := ih (insertBill f.id amount month dueDate s)
    simp only [insertBillsLoop]
    refine ⟨?_, ?_, ?_, ?_⟩
    · rw [h.1]; simp [insertBill, billBatch]
    · rw [h.2.1]; simp [insertBill]
    · rw [h.2.2.1]; simp [insertBill]
    · rw [h.2.2.2]; simp [insertBill]

theorem any_month_iff (month : String) (s : Store) :
    (s.bills.any fun b => b.month == month) = true ↔ ∃ b ∈ s.bills, b.month = month := by
  simp [List.any_eq_true]

theorem generateBills_dup (adminId : Nat) (month : String) (amount : Int) (dueDate : String)
    (t : Nat) (s : Store) (h : (s.bills.any fun b => b.month == month) = true) :
    generateBills adminId month amount dueDate t s =
      (.failure "Bills already generated for this month", s) := by
  simp [generateBills, h]

theorem generateBills_fresh (adminId : Nat) (month : String) (amount : Int) (dueDate : String)
    (t : Nat) (s : Store) (h : (s.bills.any fun b => b.month == month) = false) :
    generateBills adminId month amount dueDate t s =
      (.success, logActivity adminId "GENERATE_BILLS" (String.append "Generated bills for " month) t
        (insertBillsLoop amount month dueDate s.flats s)) := by
  simp [generateBills, h]

theorem generateBills_fresh_fields (adminId : Nat) (month : String) (amount : Int)
    (dueDate : String) (t : Nat) (s : Store)
    (h : (s.bills.any fun b => b.month == month) = false) :
    (generateBills adminId month amount dueDate t s).2.bills =
        s.bills ++ billBatch amount month dueDate s.nextBillId s.flats ∧
      (generateBills adminId month amount dueDate t s).2.flats = s.flats ∧
      (generateBills adminId month amount dueDate t s).2.bookings = s.bookings ∧
      (generateBills adminId month amount dueDate t s).2.visitors = s.visitors := by
  have hf := insertBillsLoop_fields amount month dueDate s.flats s
  rw [generateBills_fresh adminId month amount dueDate t s h]
  exact ⟨by simp [logActivity, hf.1], by simp [logActivity, hf.2.1],
    by simp [logActivity, hf.2.2.1], by simp [logActivity, hf.2.2.2]⟩

theorem tripleMatch_iff (amenity date timeSlot : String) (b : Booking) :
    tripleMatch amenity date timeSlot b = true ↔
      b.amenity = amenity ∧ b.date = date ∧ b.time_slot = timeSlot := by
  simp [tripleMatch, Bool.and_eq_true, and_assoc]

theorem book_taken (userId : Nat) (flatId amenity date timeSlot : String) (t : Nat) (s : Store)
    (h : ∃ b ∈ s.bookings, tripleMatch amenity date timeSlot b = true) :
    book userId flatId amenity date timeSlot t s = (.failure "Slot already booked", s) := by
  unfold book
  cases hfind : s.bookings.find? (tripleMatch amenity date timeSlot) with
  | some b => rfl
  | none =>
    rw [List.find?_eq_none] at hfind
    obtain ⟨b, hb, hm⟩ := h
    exact absurd hm (by simpa using hfind b hb)

theorem book_free (userId : Nat) (flatId amenity date timeSlot : String) (t : Nat) (s : Store)
    (h : ∀ b ∈ s.bookings, tripleMatch amenity date timeSlot b = false) :
    book userId flatId amenity date timeSlot t s =
      (.success, logActivity userId "BOOK_AMENITY"
        (String.append "Booked " (String.append amenity (String.append " for " date))) t
        { s with bookings := s.bookings ++ [⟨flatId, userId, amenity, date, timeSlot, "Confirmed"⟩] }) := by
  unfold book
  have hfind : s.bookings.find? (tripleMatch amenity date timeSlot) = none := by
    rw [List.find?_eq_none]
    intro x hx
    simp [h x hx]
  rw [hfind]

theorem setFlatPaid_id (flatId : String) (f : Flat) : (setFlatPaid flatId f).id = f.id := by
  unfold setFlatPaid; split <;> rfl

theorem setBillPaid_month (billId : Nat) (b : Bill) : (setBillPaid billId b).month = b.month := by
  unfold setBillPaid; split <;> rfl

theorem setBillPaid_idem (billId : Nat) (b : Bill) :
    setBillPaid billId (setBillPaid billId b) = setBillPaid billId b := by
  unfold setBillPaid
  by_cases h : b.id = billId <;> simp [h]

theorem setFlatPaid_idem (flatId : String) (f : Flat) :
    setFlatPaid flatId (setFlatPaid flatId f) = setFlatPaid flatId f := by
  unfold setFlatPaid
  by_cases h : f.id = flatId <;> simp [h]

theorem filter_month_map_setBillPaid (billId : Nat) (m : String) (l : List Bill) :
    ((l.map (setBillPaid billId)).filter (fun b => b.month == m)).length =
      (l.filter (fun b => b.month == m)).length := by
  induction l with
  | nil => rfl
  | cons b l ih =>
    simp only [List.map_cons, List.filter_cons, setBillPaid_month]
    cases hb : (b.month == m) <;> simp [hb, ih]

theorem run_preserve (P : Store → Prop) (h : ∀ s o, P s → P (applyOp s o)) :
    ∀ (ops : List Op) (s : Store), P s → P (run s ops) := by
  intro ops
  induction ops with
  | nil => intro s hs; exact hs
  | cons o ops ih =>
    intro s hs
    have hr : run s (o :: ops) = run (applyOp s o) ops := by simp [run]
    rw [hr]
    exact ih _ (h s o hs)

theorem cycleBillCount_zero_of_any_false (month : String) (s : Store)
    (h : (s.bills.any fun b => b.month == month) = false) :
    cycleBillCount month s = 0 := by
  rw [List.any_eq_false] at h
  simp only [cycleBillCount, List.length_eq_zero, List.filter_eq_nil_iff]
  intro b hb
  exact h b hb

theorem noPartialBatch_applyOp (s : Store) (o : Op) (h : noPartialBatch s) :
    noPartialBatch (applyOp s o) := by
  cases o with
  | generateBills a m amt d t =>
    cases hany : (s.bills.any fun b => b.month == m) with
    | true =>
      have hs : applyOp s (.generateBills a m amt d t) = s := by
        simp [applyOp, generateBills_dup a m amt d t s hany]
      rw [hs]; exact h
    | false =>
      have hf := generateBills_fresh_fields a m amt d t s hany
      intro m2
      have hcount : cycleBillCount m2 (applyOp s (.generateBills a m amt d t)) =
          cycleBillCount m2 s + (if m = m2 then s.flats.length else 0) := by
        simp only [applyOp]
        simp [cycleBillCount, hf.1, List.filter_append, billBatch_filter_month]
      have hflats : (applyOp s (.generateBills a m amt d t)).flats = s.flats := hf.2.1
      by_cases hm : m = m2
      · subst hm
        right
        rw [hcount, cycleBillCount_zero_of_any_false m s hany, hflats]
        simp
      · rcases h m2 with h0 | h1
        · left; rw [hcount, if_neg hm, h0]
        · right; rw [hcount, if_neg hm, h1, hflats]; simp
  | markPaid a f b t =>
    intro m2
    have hbills : (applyOp s (.markPaid a f b t)).bills = s.bills.map (setBillPaid b) := by
      simp [applyOp, markPaid, logActivity]
    have hflats : (applyOp s (.markPaid a f b t)).flats = s.flats.map (setFlatPaid f) := by
      simp [applyOp, markPaid, logActivity]
    have hc : cycleBillCount m2 (applyOp s (.markPaid a f b t)) = cycleBillCount m2 s := by
      simp [cycleBillCount, hbills, filter_month_map_setBillPaid]
    rw [hc, hflats, List.length_map]
    exact h m2
  | book u f am d ts t =>
    cases hfind : s.bookings.find? (tripleMatch am d ts) with
    | some bk =>
      have hs : applyOp s (.book u f am d ts t) = s := by simp [applyOp, book, hfind]
      rw [hs]; exact h
    | none =>
      intro m2
      have hb : (applyOp s (.book u f am d ts t)).bills = s.bills := by
        simp [applyOp, book, hfind, logActivity]
      have hfl : (applyOp s (.book u f am d ts t)).flats = s.flats := by
        simp [applyOp, book, hfind, logActivity]
      rw [show cycleBillCount m2 (applyOp s (.book u f am d ts t)) = cycleBillCount m2 s by
        simp [cycleBillCount, hb], hfl]
      exact h m2
  | raiseComplaint u f ti de c t =>
    intro m2
    simpa [applyOp, raiseComplaint, logActivity, cycleBillCount] using h m2
  | createAlert a tw ti me se t =>
    intro m2
    simpa [applyOp, createAlert, logActivity, cycleBillCount] using h m2
  | createEvent a ti de d t =>
    intro m2
    simpa [applyOp, createEvent, logActivity, cycleBillCount] using h m2
  | recordEntry u n tw f t =>
    intro m2
    simpa [applyOp, recordEntry, logActivity, cycleBillCount] using h m2
  | recordExit u v t =>
    intro m2
    simpa [applyOp, recordExit, logActivity, cycleBillCount] using h m2

theorem tripleCount_zero_of_find_none (amenity date timeSlot : String) (s : Store)
    (h : s.bookings.find? (tripleMatch amenity date timeSlot) = none) :
    tripleCount amenity date timeSlot s = 0 := by
  rw [List.find?_eq_none] at h
  simp only [tripleCount, List.length_eq_zero, List.filter_eq_nil_iff]
  intro b hb
  simpa using h b hb

theorem bookingUnique_applyOp (s : Store) (o : Op) (h : bookingUnique s) :
    bookingUnique (applyOp s o) := by
  cases o with
  | book u f am d ts t =>
    cases hfind : s.bookings.find? (tripleMatch am d ts) with
    | some bk =>
      have hs : applyOp s (.book u f am d ts t) = s := by simp [applyOp, book, hfind]
      rw [hs]; exact h
    | none =>
      intro a2 d2 ts2
      have hbk : (applyOp s (.book u f am d ts t)).bookings =
          s.bookings ++ [⟨f, u, am, d, ts, "Confirmed"⟩] := by
        simp [applyOp, book, hfind, logActivity]
      have hcount : tripleCount a2 d2 ts2 (applyOp s (.book u f am d ts t)) =
          tripleCount a2 d2 ts2 s +
            (List.filter (tripleMatch a2 d2 ts2) [⟨f, u, am, d, ts, "Confirmed"⟩]).length := by
        simp [tripleCount, hbk, List.filter_append]
      by_cases hm : tripleMatch a2 d2 ts2 ⟨f, u, am, d, ts, "Confirmed"⟩ = true
      · obtain ⟨h1, h2, h3⟩ := (tripleMatch_iff a2 d2 ts2 _).mp hm
        have hzero : tripleCount a2 d2 ts2 s = 0 := by
          rw [← h1, ← h2, ← h3]
          exact tripleCount_zero_of_find_none am d ts s hfind
        rw [hcount, hzero]
        simp [hm]
      · have hone : (List.filter (tripleMatch a2 d2 ts2) [⟨f, u, am, d, ts, "Confirmed"⟩]).length = 0 := by
          simp only [Bool.not_eq_true] at hm
          simp [List.filter_cons, hm]
        rw [hcount, hone]
        simpa using h a2 d2 ts2
  | generateBills a m amt d t =>
    cases hany : (s.bills.any fun b => b.month == m) with
    | true =>
      have hs : applyOp s (.generateBills a m amt d t) = s := by
        simp [applyOp, generateBills_dup a m amt d t s hany]
      rw [hs]; exact h
    | false =>
      intro a2 d2 ts2
      have hbk := (generateBills_fresh_fields a m amt d t s hany).2.2.1
      rw [show tripleCount a2 d2 ts2 (applyOp s (.generateBills a m amt d t)) =
        tripleCount a2 d2 ts2 s by simp [tripleCount, applyOp, hbk]]
      exact h a2 d2 ts2
  | markPaid a f b t =>
    intro a2 d2 ts2
    simpa [applyOp, markPaid, logActivity, tripleCount] using h a2 d2 ts2
  | raiseComplaint u f ti de c t =>
    intro a2 d2 ts2
    simpa [applyOp, raiseComplaint, logActivity, tripleCount] using h a2 d2 ts2
  | createAlert a tw ti me se t =>
    intro a2 d2 ts2
    simpa [applyOp, createAlert, logActivity, tripleCount] using h a2 d2 ts2
  | createEvent a ti de d t =>
    intro a2 d2 ts2
    simpa [applyOp, createEvent, logActivity, tripleCount] using h a2 d2 ts2
  | recordEntry u n tw f t =>
    intro a2 d2 ts2
    simpa [applyOp, recordEntry, logActivity, tripleCount] using h a2 d2 ts2
  | recordExit u v t =>
    intro a2 d2 ts2
    simpa [applyOp, recordExit, logActivity, tripleCount] using h a2 d2 ts2

theorem visitorInv_applyOp (s : Store) (o : Op) (h : visitorInv s) :
    visitorInv (applyOp s o) := by
  cases o with
  | recordEntry u n tw f t =>
    intro v hv
    have hvis : (applyOp s (.recordEntry u n tw f t)).visitors =
        s.visitors ++ [⟨s.nextVisitorId, n, tw, f, t, none, "In"⟩] := by
      simp [applyOp, recordEntry, logActivity]
    rw [hvis] at hv
    rcases List.mem_append.mp hv with hv | hv
    · exact h v hv
    · have hveq : v = ⟨s.nextVisitorId, n, tw, f, t, none, "In"⟩ := by simpa using hv
      subst hveq
      refine ⟨?_, ?_⟩ <;> simp
  | recordExit u vid t =>
    intro v hv
    have hvis : (applyOp s (.recordExit u vid t)).visitors =
        s.visitors.map (setVisitorOut vid t) := by
      simp [applyOp, recordExit, logActivity]
    rw [hvis] at hv
    obtain ⟨w, hw, rfl⟩ := List.mem_map.mp hv
    unfold setVisitorOut
    by_cases hid : w.id = vid
    · refine ⟨?_, ?_⟩ <;> simp [hid]
    · simp only [hid, if_false]
      exact h w hw
  | generateBills a m amt d t =>
    cases hany : (s.bills.any fun b => b.month == m) with
    | true =>
      have hs : applyOp s (.generateBills a m amt d t) = s := by
        simp [applyOp, generateBills_dup a m amt d t s hany]
      rw [hs]; exact h
    | false =>
      intro v hv
      have hvis := (generateBills_fresh_fields a m amt d t s hany).2.2.2
      apply h v
      rw [show (applyOp s (.generateBills a m amt d t)).visitors = s.visitors by
        simp [applyOp, hvis]] at hv
      exact hv
  | book u f am d ts t =>
    cases hfind : s.bookings.find? (tripleMatch am d ts) with
    | some bk =>
      have hs : applyOp s (.book u f am d ts t) = s := by simp [applyOp, book, hfind]
      rw [hs]; exact h
    | none =>
      intro v hv
      apply h v
      rw [show (applyOp s (.book u f am d ts t)).visitors = s.visitors by
        simp [applyOp, book, hfind, logActivity]] at hv
      exact hv
  | markPaid a f b t =>
    intro v hv
    apply h v
    rw [show (applyOp s (.markPaid a f b t)).visitors = s.visitors by
      simp [applyOp, markPaid, logActivity]] at hv
    exact hv
  | raiseComplaint u f ti de c t =>
    intro v hv
    apply h v
    rw [show (applyOp s (.raiseComplaint u f ti de c t)).visitors = s.visitors by
      simp [applyOp, raiseComplaint, logActivity]] at hv
    exact hv
  | createAlert a tw ti me se t =>
    intro v hv
    apply h v
    rw [show (applyOp s (.createAlert a tw ti me se t)).visitors = s.visitors by
      simp [applyOp, createAlert, logActivity]] at hv
    exact hv
  | createEvent a ti de d t =>
    intro v hv
    apply h v
    rw [show (applyOp s (.createEvent a ti de d t)).visitors = s.visitors by
      simp [applyOp, createEvent, logActivity]] at hv
    exact hv

/-- C1: generateBillsForCycle answers the DuplicateCycle failure exactly when
some existing bill already carries the requested cycle label, a failing call
leaves the store unchanged, and calling it twice with the same fresh label
leaves the number of bills labelled with that cycle equal to the number of
flats, not double. -/
theorem generate_bills_duplicate_cycle_guard
    (adminId : Nat) (month : String) (amount : Int) (dueDate : String) (t : Nat) (s : Store) :
    ((generateBills adminId month amount dueDate t s).1 =
        ApiResult.failure "Bills already generated for this month" ↔
      ∃ b ∈ s.bills, b.month = month) ∧
    ((∃ b ∈ s.bills, b.month = month) →
      (generateBills adminId month amount dueDate t s).2 = s) ∧
    ((¬ ∃ b ∈ s.bills, b.month = month) →
      cycleBillCount month
        (run s [Op.generateBills adminId month amount dueDate t,
                Op.generateBills adminId month amount dueDate t]) = s.flats.length) := by
  cases hany : (s.bills.any fun b => b.month == month) with
  | true =>
    have hex : ∃ b ∈ s.bills, b.month = month := (any_month_iff month s).mp hany
    refine ⟨⟨fun _ => hex, fun _ => ?_⟩, fun _ => ?_, fun hct => absurd hex hct⟩
    · rw [generateBills_dup adminId month amount dueDate t s hany]
    · rw [generateBills_dup adminId month amount dueDate t s hany]
  | false =>
    have hnex : ¬ ∃ b ∈ s.bills, b.month = month := by
      intro hex
      have := (any_month_iff month s).mpr hex
      rw [hany] at this
      exact Bool.noConfusion this
    refine ⟨⟨fun heq => ?_, fun hex => absurd hex hnex⟩, fun hex => absurd hex hnex, fun _ => ?_⟩
    · rw [generateBills_fresh adminId month amount dueDate t s hany] at heq
      exact ApiResult.noConfusion heq
    · -- first call succeeds and appends one bill per flat
      have hf := generateBills_fresh_fields adminId month amount dueDate t s hany
      have hrun : run s [Op.generateBills adminId month amount dueDate t,
          Op.generateBills adminId month amount dueDate t] =
          applyOp (applyOp s (Op.generateBills adminId month amount dueDate t))
            (Op.generateBills adminId month amount dueDate t) := by
        simp [run]
      set s1 := applyOp s (Op.generateBills adminId month amount dueDate t) with hs1
      have h1bills : s1.bills = s.bills ++ billBatch amount month dueDate s.nextBillId s.flats := by
        simpa [applyOp] using hf.1
      have hcount1 : cycleBillCount month s1 = s.flats.length := by
        rw [cycleBillCount, h1bills, List.filter_append]
        have hz := cycleBillCount_zero_of_any_false month s hany
        rw [cycleBillCount] at hz
        simp [hz, billBatch_filter_month]
      cases hfl : s.flats with
      | nil =>
        -- no flats: both calls succeed and append empty batches
        have h1b : s1.bills = s.bills := by rw [h1bills, hfl]; simp [billBatch]
        have hany1 : (s1.bills.any fun b => b.month == month) = false := by rw [h1b]; exact hany
        have h1f : s1.flats = s.flats := by simpa [applyOp] using hf.2.1
        have hf2 := generateBills_fresh_fields adminId month amount dueDate t s1 hany1
        have h2bills : (applyOp s1 (Op.generateBills adminId month amount dueDate t)).bills =
            s1.bills ++ billBatch amount month dueDate s1.nextBillId s1.flats := by
          simpa [applyOp] using hf2.1
        rw [hrun, cycleBillCount, h2bills, h1f, hfl]
        simp [billBatch, List.filter_append, h1b]
        have hz := cycleBillCount_zero_of_any_false month s hany
        rw [cycleBillCount] at hz
        simpa using hz
      | cons f fs =>
        -- at least one flat: the second call hits the duplicate check
        have hmem : (⟨s.nextBillId, f.id, amount, month, dueDate, "Unpaid"⟩ : Bill) ∈ s1.bills := by
          rw [h1bills, hfl]
          simp [billBatch]
        have hany1 : (s1.bills.any fun b => b.month == month) = true :=
          List.any_eq_true.mpr ⟨_, hmem, by simp⟩
        have hstop : applyOp s1 (Op.generateBills adminId month amount dueDate t) = s1 := by
          simp [applyOp, generateBills_dup adminId month amount dueDate t s1 hany1]
        rw [hrun, hstop, hcount1, hfl]

/-- Closed instance of the C1 theorem: the duplicate-cycle branch on a store
already holding a 2026-03 bill, and the double-call count on a one-flat store
with no bills. -/
theorem generate_bills_duplicate_cycle_guard_witness :
    (∃ b ∈ dupBillStore.bills, b.month = "2026-03") ∧
      (generateBills 1 "2026-03" 1500 "2026-03-10" 7 dupBillStore).2 = dupBillStore ∧
      (¬ ∃ b ∈ oneFlatStore.bills, b.month = "2026-03") ∧
      cycleBillCount "2026-03"
        (run oneFlatStore [Op.generateBills 1 "2026-03" 1500 "2026-03-10" 7,
                           Op.generateBills 1 "2026-03" 1500 "2026-03-10" 7]) =
        oneFlatStore.flats.length := by
  have hdup : ∃ b ∈ dupBillStore.bills, b.month = "2026-03" := by
    refine ⟨⟨1, "A-101", 1500, "2026-03", "2026-03-10", "Unpaid"⟩, ?_, rfl⟩
    simp [dupBillStore]
  have hfresh : ¬ ∃ b ∈ oneFlatStore.bills, b.month = "2026-03" := by
    simp [oneFlatStore, emptyStore]
  exact ⟨hdup,
    (generate_bills_duplicate_cycle_guard 1 "2026-03" 1500 "2026-03-10" 7 dupBillStore).2.1 hdup,
    hfresh,
    (generate_bills_duplicate_cycle_guard 1 "2026-03" 1500 "2026-03-10" 7 oneFlatStore).2.2 hfresh⟩

/-- C3: with no bill yet carrying the cycle label, generate-bills succeeds and
appends exactly one Unpaid bill per flat in the store carrying the requested
amount, due date and cycle label; and the batch is all-or-nothing: from any
store without a partial batch, no sequence of requests reaches a state where a
cycle label is carried by more than zero and fewer than one-per-flat bills. -/
theorem generate_bills_full_batch_atomic :
    (∀ (adminId : Nat) (month : String) (amount : Int) (dueDate : String) (t : Nat) (s : Store),
      (¬ ∃ b ∈ s.bills, b.month = month) →
        (generateBills adminId month amount dueDate t s).1 = ApiResult.success ∧
        ∃ newBills,
          (generateBills adminId month amount dueDate t s).2.bills = s.bills ++ newBills ∧
          newBills.length = s.flats.length ∧
          newBills.map (fun b => b.flat_id) = s.flats.map (fun f => f.id) ∧
          ∀ b ∈ newBills, b.status = "Unpaid" ∧ b.amount = amount ∧
            b.due_date = dueDate ∧ b.month = month) ∧
    (∀ (s : Store) (ops : List Op), noPartialBatch s → noPartialBatch (run s ops)) := by
  constructor
  · intro adminId month amount dueDate t s hnex
    have hany : (s.bills.any fun b => b.month == month) = false := by
      cases hany : (s.bills.any fun b => b.month == month) with
      | false => rfl
      | true => exact absurd ((any_month_iff month s).mp hany) hnex
    have hf := generateBills_fresh_fields adminId month amount dueDate t s hany
    refine ⟨by rw [generateBills_fresh adminId month amount dueDate t s hany],
      billBatch amount month dueDate s.nextBillId s.flats, hf.1,
      billBatch_length amount month dueDate s.nextBillId s.flats,
      billBatch_map_flat_id amount month dueDate s.nextBillId s.flats,
      billBatch_mem amount month dueDate s.nextBillId s.flats⟩
  · intro s ops h
    exact run_preserve noPartialBatch noPartialBatch_applyOp ops s h

/-- Closed instance of the C3 theorem: a fresh generation on a one-flat store,
and batch integrity across a two-request run from the empty store. -/
theorem generate_bills_full_batch_atomic_witness :
    (¬ ∃ b ∈ oneFlatStore.bills, b.month = "2026-04") ∧
      ((generateBills 1 "2026-04" 1500 "2026-04-10" 3 oneFlatStore).1 = ApiResult.success ∧
        ∃ newBills,
          (generateBills 1 "2026-04" 1500 "2026-04-10" 3 oneFlatStore).2.bills =
            oneFlatStore.bills ++ newBills ∧
          newBills.length = oneFlatStore.flats.length ∧
          newBills.map (fun b => b.flat_id) = oneFlatStore.flats.map (fun f => f.id) ∧
          ∀ b ∈ newBills, b.status = "Unpaid" ∧ b.amount = 1500 ∧
            b.due_date = "2026-04-10" ∧ b.month = "2026-04") ∧
      noPartialBatch emptyStore ∧
      noPartialBatch (run emptyStore
        [Op.recordEntry 2 "Vikram" "A" "A-101" 5, Op.markPaid 1 "A-101" 1 6]) := by
  have hnex : ¬ ∃ b ∈ oneFlatStore.bills, b.month = "2026-04" := by
    simp [oneFlatStore, emptyStore]
  have hnp : noPartialBatch emptyStore := fun _ => Or.inl rfl
  exact ⟨hnex,
    generate_bills_full_batch_atomic.1 1 "2026-04" 1500 "2026-04-10" 3 oneFlatStore hnex,
    hnp,
    generate_bills_full_batch_atomic.2 emptyStore
      [Op.recordEntry 2 "Vikram" "A" "A-101" 5, Op.markPaid 1 "A-101" 1 6] hnp⟩

/-- C2: from any store where every slot triple is held by at most one booking,
every request sequence preserves that bound; a book call finding an existing
booking with the requested triple fails with SlotTaken and performs no write;
otherwise it succeeds and inserts exactly one new booking with status
Confirmed. -/
theorem booking_slot_exclusive :
    (∀ (s : Store) (ops : List Op), bookingUnique s → bookingUnique (run s ops)) ∧
    (∀ (userId : Nat) (flatId amenity date timeSlot : String) (t : Nat) (s : Store),
      (∃ b ∈ s.bookings, b.amenity = amenity ∧ b.date = date ∧ b.time_slot = timeSlot) →
        book userId flatId amenity date timeSlot t s = (.failure "Slot already booked", s)) ∧
    (∀ (userId : Nat) (flatId amenity date timeSlot : String) (t : Nat) (s : Store),
      (¬ ∃ b ∈ s.bookings, b.amenity = amenity ∧ b.date = date ∧ b.time_slot = timeSlot) →
        (book userId flatId amenity date timeSlot t s).1 = ApiResult.success ∧
        (book userId flatId amenity date timeSlot t s).2.bookings =
          s.bookings ++ [⟨flatId, userId, amenity, date, timeSlot, "Confirmed"⟩]) := by
  refine ⟨fun s ops h => run_preserve bookingUnique bookingUnique_applyOp ops s h, ?_, ?_⟩
  · intro u f a d ts t s hex
    apply book_taken
    obtain ⟨b, hb, h1, h2, h3⟩ := hex
    exact ⟨b, hb, (tripleMatch_iff a d ts b).mpr ⟨h1, h2, h3⟩⟩
  · intro u f a d ts t s hnex
    have hall : ∀ b ∈ s.bookings, tripleMatch a d ts b = false := by
      intro b hb
      cases hm : tripleMatch a d ts b with
      | false => rfl
      | true =>
        obtain ⟨h1, h2, h3⟩ := (tripleMatch_iff a d ts b).mp hm
        exact absurd ⟨b, hb, h1, h2, h3⟩ hnex
    rw [book_free u f a d ts t s hall]
    exact ⟨rfl, by simp [logActivity]⟩

/-- Closed instance of the C2 theorem: uniqueness across a run of two book
requests from the empty store, the SlotTaken branch on a store already holding
the Gym slot, and the successful branch on a free slot of the same store. -/
theorem booking_slot_exclusive_witness :
    bookingUnique emptyStore ∧
      bookingUnique (run emptyStore
        [Op.book 3 "A-101" "Gym" "2026-03-20" "06:00 AM - 08:00 AM" 4,
         Op.book 4 "B-204" "Gym" "2026-03-20" "06:00 AM - 08:00 AM" 5]) ∧
      (∃ b ∈ bookedStore.bookings,
        b.amenity = "Gym" ∧ b.date = "2026-03-20" ∧ b.time_slot = "06:00 AM - 08:00 AM") ∧
      book 4 "B-204" "Gym" "2026-03-20" "06:00 AM - 08:00 AM" 5 bookedStore =
        (.failure "Slot already booked", bookedStore) ∧
      (¬ ∃ b ∈ bookedStore.bookings,
        b.amenity = "Gym" ∧ b.date = "2026-03-20" ∧ b.time_slot = "08:00 AM - 10:00 AM") ∧
      ((book 4 "B-204" "Gym" "2026-03-20" "08:00 AM - 10:00 AM" 5 bookedStore).1 =
          ApiResult.success ∧
        (book 4 "B-204" "Gym" "2026-03-20" "08:00 AM - 10:00 AM" 5 bookedStore).2.bookings =
          bookedStore.bookings ++
            [⟨"B-204", 4, "Gym", "2026-03-20", "08:00 AM - 10:00 AM", "Confirmed"⟩]) := by
  have hu : bookingUnique emptyStore := fun _ _ _ => Nat.zero_le 1
  have hex : ∃ b ∈ bookedStore.bookings,
      b.amenity = "Gym" ∧ b.date = "2026-03-20" ∧ b.time_slot = "06:00 AM - 08:00 AM" := by
    refine ⟨⟨"A-101", 3, "Gym", "2026-03-20", "06:00 AM - 08:00 AM", "Confirmed"⟩, ?_, rfl, rfl, rfl⟩
    simp [bookedStore]
  have hnex : ¬ ∃ b ∈ bookedStore.bookings,
      b.amenity = "Gym" ∧ b.date = "2026-03-20" ∧ b.time_slot = "08:00 AM - 10:00 AM" := by
    simp [bookedStore]
  exact ⟨hu,
    booking_slot_exclusive.1 emptyStore _ hu,
    hex,
    booking_slot_exclusive.2.1 4 "B-204" "Gym" "2026-03-20" "06:00 AM - 08:00 AM" 5 bookedStore hex,
    hnex,
    booking_slot_exclusive.2.2 4 "B-204" "Gym" "2026-03-20" "08:00 AM - 10:00 AM" 5 bookedStore hnex⟩

/-- C9: every request preserves the visitor invariant that status is Out
exactly when the exit timestamp is set and In exactly when it is null; in
particular recordEntry inserts a row with status In and a null exit
timestamp, and recordExit sets the exit timestamp and the Out status together
on the matched row while keeping every other row unchanged. -/
theorem visitor_status_invariant :
    (∀ (s : Store) (ops : List Op), visitorInv s → visitorInv (run s ops)) ∧
    (∀ (userId : Nat) (name tower flatId : String) (t : Nat) (s : Store),
      (recordEntry userId name tower flatId t s).2.visitors =
        s.visitors ++ [⟨s.nextVisitorId, name, tower, flatId, t, none, "In"⟩]) ∧
    (∀ (userId vid t : Nat) (s : Store),
      (recordExit userId vid t s).2.visitors.length = s.visitors.length ∧
        ∀ v ∈ s.visitors,
          (v.id = vid →
            ({ v with exit_time := some t, status := "Out" } : Visitor) ∈
              (recordExit userId vid t s).2.visitors) ∧
          (v.id ≠ vid → v ∈ (recordExit userId vid t s).2.visitors)) := by
  refine ⟨fun s ops h => run_preserve visitorInv visitorInv_applyOp ops s h, ?_, ?_⟩
  · intro u n tw f t s
    simp [recordEntry, logActivity]
  · intro u vid t s
    have hvis : (recordExit u vid t s).2.visitors = s.visitors.map (setVisitorOut vid t) := by
      simp [recordExit, logActivity]
    refine ⟨by rw [hvis, List.length_map], ?_⟩
    intro v hv
    constructor
    · intro hid
      rw [hvis]
      refine List.mem_map.mpr ⟨v, hv, ?_⟩
      simp [setVisitorOut, hid]
    · intro hid
      rw [hvis]
      refine List.mem_map.mpr ⟨v, hv, ?_⟩
      simp [setVisitorOut, hid]

/-- Closed instance of the C9 theorem: the invariant holds on the empty store
and after an entry followed by an exit. -/
theorem visitor_status_invariant_witness :
    visitorInv emptyStore ∧
      visitorInv (run emptyStore
        [Op.recordEntry 2 "Vikram" "A" "A-101" 5, Op.recordExit 2 1 9]) := by
  have h0 : visitorInv emptyStore := fun v hv => absurd hv (List.not_mem_nil v)
  exact ⟨h0, visitor_status_invariant.1 emptyStore _ h0⟩

/-- C4 counterexample: on the empty store neither the flat id Z-999 nor the
bill id 999 resolves to a row, yet mark-paid answers success instead of any
NotFound failure. -/
theorem mark_paid_not_found_counterexample :
    emptyStore.flats = [] ∧ emptyStore.bills = [] ∧
      (markPaid 1 "Z-999" 999 0 emptyStore).1 = ApiResult.success :=
  ⟨rfl, rfl, rfl⟩

/-- C4 amended: markPaid never fails; it answers success for every input, and
a flat id or bill id that resolves to no row simply leaves the corresponding
table unchanged. -/
theorem mark_paid_never_fails
    (adminId : Nat) (flatId : String) (billId : Nat) (t : Nat) (s : Store) :
    (markPaid adminId flatId billId t s).1 = ApiResult.success ∧
    ((∀ f ∈ s.flats, f.id ≠ flatId) → (markPaid adminId flatId billId t s).2.flats = s.flats) ∧
    ((∀ b ∈ s.bills, b.id ≠ billId) → (markPaid adminId flatId billId t s).2.bills = s.bills) := by
  refine ⟨rfl, ?_, ?_⟩
  · intro h
    have hmap : ∀ f ∈ s.flats, setFlatPaid flatId f = id f := by
      intro f hf
      simp [setFlatPaid, h f hf]
    have hflats : (markPaid adminId flatId billId t s).2.flats =
        s.flats.map (setFlatPaid flatId) := by
      simp [markPaid, logActivity]
    rw [hflats, List.map_congr_left hmap, List.map_id]
  · intro h
    have hmap : ∀ b ∈ s.bills, setBillPaid billId b = id b := by
      intro b hb
      simp [setBillPaid, h b hb]
    have hbills : (markPaid adminId flatId billId t s).2.bills =
        s.bills.map (setBillPaid billId) := by
      simp [markPaid, logActivity]
    rw [hbills, List.map_congr_left hmap, List.map_id]

/-- Closed instance of the amended C4 theorem on a one-flat store with a flat
id and a bill id that resolve to nothing. -/
theorem mark_paid_never_fails_witness :
    (∀ f ∈ oneFlatStore.flats, f.id ≠ "Z-999") ∧
      (∀ b ∈ oneFlatStore.bills, b.id ≠ 7) ∧
      (markPaid 1 "Z-999" 7 0 oneFlatStore).1 = ApiResult.success ∧
      (markPaid 1 "Z-999" 7 0 oneFlatStore).2.flats = oneFlatStore.flats ∧
      (markPaid 1 "Z-999" 7 0 oneFlatStore).2.bills = oneFlatStore.bills := by
  have hf : ∀ f ∈ oneFlatStore.flats, f.id ≠ "Z-999" := by decide
  have hb : ∀ b ∈ oneFlatStore.bills, b.id ≠ 7 := by decide
  have h := mark_paid_never_fails 1 "Z-999" 7 0 oneFlatStore
  exact ⟨hf, hb, h.1, h.2.1 hf, h.2.2 hb⟩

/-- C5 counterexample: two identical mark-paid calls do not reach the same end
state as one call, because each call appends a MARK_PAID activity-log row. -/
theorem mark_paid_twice_counterexample :
    (markPaid 1 "A-101" 1 0 (markPaid 1 "A-101" 1 0 emptyStore).2).2 ≠
      (markPaid 1 "A-101" 1 0 emptyStore).2 := by
  decide

/-- C5 amended: a second mark-paid with the same arguments changes nothing
except the append-only activity log, which gains one more MARK_PAID entry;
the flats and bills tables and every other table are left exactly as the
first call left them. -/
theorem mark_paid_idempotent_up_to_log
    (adminId : Nat) (flatId : String) (billId : Nat) (t1 t2 : Nat) (s : Store) :
    (markPaid adminId flatId billId t2 (markPaid adminId flatId billId t1 s).2).2 =
      { (markPaid adminId flatId billId t1 s).2 with
        activity_logs := (markPaid adminId flatId billId t1 s).2.activity_logs ++
          [⟨adminId, "MARK_PAID", markPaidDetails flatId billId, t2⟩] } := by
  obtain ⟨fl, bi, co, al, ev, bo, vi, ex, lg, nb, nv⟩ := s
  simp only [markPaid, logActivity, List.map_map]
  congr 1
  · exact List.map_congr_left fun f _ => setFlatPaid_idem flatId f
  · exact List.map_congr_left fun b _ => setBillPaid_idem billId b

/-- C10: when the flat id resolves to an existing flat but the bill id
resolves to no bill, mark-paid still answers success, sets that flat to Paid,
and changes no bill row; the two updates are independent. -/
theorem mark_paid_missing_bill_still_succeeds
    (adminId : Nat) (flatId : String) (billId : Nat) (t : Nat) (s : Store)
    (hf : ∃ f ∈ s.flats, f.id = flatId) (hb : ∀ b ∈ s.bills, b.id ≠ billId) :
    (markPaid adminId flatId billId t s).1 = ApiResult.success ∧
    (markPaid adminId flatId billId t s).2.bills = s.bills ∧
    (∀ f ∈ (markPaid adminId flatId billId t s).2.flats,
      f.id = flatId → f.maintenance_status = "Paid") ∧
    (∃ f ∈ (markPaid adminId flatId billId t s).2.flats, f.id = flatId) := by
  have hflats : (markPaid adminId flatId billId t s).2.flats =
      s.flats.map (setFlatPaid flatId) := by
    simp [markPaid, logActivity]
  refine ⟨rfl, (mark_paid_never_fails adminId flatId billId t s).2.2 hb, ?_, ?_⟩
  · intro f hfm hid
    rw [hflats] at hfm
    obtain ⟨g, hg, rfl⟩ := List.mem_map.mp hfm
    by_cases hgid : g.id = flatId
    · simp [setFlatPaid, hgid]
    · exact absurd ((setFlatPaid_id flatId g) ▸ hid) hgid
  · obtain ⟨f, hfm, hid⟩ := hf
    refine ⟨setFlatPaid flatId f, ?_, ?_⟩
    · rw [hflats]
      exact List.mem_map_of_mem _ hfm
    · rw [setFlatPaid_id]
      exact hid

/-- Closed instance of the C10 theorem on a one-flat store with no bills. -/
theorem mark_paid_missing_bill_still_succeeds_witness :
    (∃ f ∈ oneFlatStore.flats, f.id = "A-101") ∧
      (∀ b ∈ oneFlatStore.bills, b.id ≠ 5) ∧
      ((markPaid 1 "A-101" 5 0 oneFlatStore).1 = ApiResult.success ∧
        (markPaid 1 "A-101" 5 0 oneFlatStore).2.bills = oneFlatStore.bills ∧
        (∀ f ∈ (markPaid 1 "A-101" 5 0 oneFlatStore).2.flats,
          f.id = "A-101" → f.maintenance_status = "Paid") ∧
        (∃ f ∈ (markPaid 1 "A-101" 5 0 oneFlatStore).2.flats, f.id = "A-101")) := by
  have hf : ∃ f ∈ oneFlatStore.flats, f.id = "A-101" := by
    refine ⟨⟨"A-101", "A", 1, 1, "Rahul Sharma", "Unpaid"⟩, ?_, rfl⟩
    simp [oneFlatStore]
  have hb : ∀ b ∈ oneFlatStore.bills, b.id ≠ 5 := by decide
  exact ⟨hf, hb, mark_paid_missing_bill_still_succeeds 1 "A-101" 5 0 oneFlatStore hf hb⟩

theorem sqlSum_getD (xs : List Int) : (sqlSum xs).getD 0 = xs.sum := by
  cases xs with
  | nil => rfl
  | cons x xs => simp [sqlSum, List.sum_eq_foldl]

/-- C6: computeStats reports the flat count, the Paid flat count, the count of
complaints whose status differs from Resolved, the count of visitors with
status In, and the amounts of Paid and Unpaid bills summed over the bills
table; it is a pure read (its type writes nothing back), and on the empty
store every count and both sums are 0 rather than null or an error. -/
theorem compute_stats_correct :
    (∀ s : Store,
      (computeStats s).totalFlats = s.flats.length ∧
      (computeStats s).paidFlats =
        (s.flats.filter (fun f => f.maintenance_status == "Paid")).length ∧
      (computeStats s).pendingComplaints =
        (s.complaints.filter (fun c => !(c.status == "Resolved"))).length ∧
      (computeStats s).activeVisitors =
        (s.visitors.filter (fun v => v.status == "In")).length ∧
      (computeStats s).totalCollected =
        ((s.bills.filter (fun b => b.status == "Paid")).map (fun b => b.amount)).sum ∧
      (computeStats s).totalPending =
        ((s.bills.filter (fun b => b.status == "Unpaid")).map (fun b => b.amount)).sum) ∧
    computeStats emptyStore = ⟨0, 0, 0, 0, 0, 0⟩ := by
  refine ⟨fun s => ⟨rfl, rfl, rfl, rfl, sqlSum_getD _, sqlSum_getD _⟩, rfl⟩

/-- C8 counterexample: the visitors listing on a store whose only visitor has
status Out still returns that visitor, so visitors with status Out do appear
in the result. -/
theorem list_active_includes_out_counterexample :
    listActive outVisitorStore = [⟨1, "Vikram", "A", "A-101", 5, some 9, "Out"⟩] ∧
      (⟨1, "Vikram", "A", "A-101", 5, some 9, "Out"⟩ : Visitor).status = "Out" := by
  exact ⟨by decide, rfl⟩

/-- C8 amended: the visitors listing returns every Visitor row of the store,
both In and Out, ordered by entry timestamp descending. -/
theorem visitors_listing_all_sorted (s : Store) :
    (listActive s).Perm s.visitors ∧ List.Sorted entryDesc (listActive s) :=
  ⟨List.perm_insertionSort entryDesc s.visitors,
    List.sorted_insertionSort entryDesc s.visitors⟩

theorem predictBudget_of_sorted (s : Store) (e0 e1 : Expense) (rest : List Expense)
    (hsort : expensesByDateDesc s = e0 :: e1 :: rest) :
    predictBudget s =
      { suggestion :=
          if 10 < ((e0.amount : ℚ) - (e1.amount : ℚ)) / (e1.amount : ℚ) * 100 then suggestionLarge
          else if 5 < ((e0.amount : ℚ) - (e1.amount : ℚ)) / (e1.amount : ℚ) * 100 then suggestionSmall
          else suggestionMaintain
        growth := ((e0.amount : ℚ) - (e1.amount : ℚ)) / (e1.amount : ℚ) * 100
        recentExpense := some e0.amount
        previousExpense := some e1.amount } := by
  simp [predictBudget, hsort]

/-- C7: with fewer than two expense rows the prediction is the soft
insufficient-data variant with growth 0; otherwise, with recent and previous
the amounts of the two most recent expenses by date descending, the growth is
recent minus previous over previous times 100 and the suggestion follows the
bands: above 10 the larger increase, above 5 up to 10 the smaller increase,
at most 5 no change; in particular previous 100000 and recent 112000 give
growth 12 in the larger-increase band. -/
theorem predict_budget_bands :
    (∀ s : Store, s.expenses.length < 2 →
      predictBudget s = ⟨"Insufficient data", 0, none, none⟩) ∧
    (∀ (s : Store) (e0 e1 : Expense) (rest : List Expense),
      expensesByDateDesc s = e0 :: e1 :: rest →
        (predictBudget s).growth =
            ((e0.amount : ℚ) - (e1.amount : ℚ)) / (e1.amount : ℚ) * 100 ∧
          (predictBudget s).recentExpense = some e0.amount ∧
          (predictBudget s).previousExpense = some e1.amount ∧
          (10 < (predictBudget s).growth → (predictBudget s).suggestion = suggestionLarge) ∧
          (5 < (predictBudget s).growth ∧ (predictBudget s).growth ≤ 10 →
            (predictBudget s).suggestion = suggestionSmall) ∧
          ((predictBudget s).growth ≤ 5 → (predictBudget s).suggestion = suggestionMaintain)) ∧
    predictBudget twoExpenseStore = ⟨suggestionLarge, 12, some 112000, some 100000⟩ := by
  refine ⟨?_, ?_, ?_⟩
  · intro s h
    have hlen : (expensesByDateDesc s).length < 2 := by
      rw [expensesByDateDesc, List.length_insertionSort]
      exact h
    cases hl : expensesByDateDesc s with
    | nil => simp [predictBudget, hl]
    | cons e rest =>
      cases rest with
      | nil => simp [predictBudget, hl]
      | cons e2 r2 =>
        rw [hl, List.length_cons, List.length_cons] at hlen
        exact absurd hlen (by omega)
  · intro s e0 e1 rest hsort
    rw [predictBudget_of_sorted s e0 e1 rest hsort]
    refine ⟨rfl, rfl, rfl, ?_, ?_, ?_⟩
    · intro h10
      simp only at h10
      simp [if_pos h10]
    · rintro ⟨h5, h10⟩
      simp only at h5 h10
      simp [if_neg (not_lt.mpr h10), if_pos h5]
    · intro h5
      simp only at h5
      have h10 : ¬ 10 < ((e0.amount : ℚ) - (e1.amount : ℚ)) / (e1.amount : ℚ) * 100 :=
        not_lt.mpr (le_trans h5 (by norm_num))
      simp [if_neg h10, if_neg (not_lt.mpr h5)]
  · have hsort : expensesByDateDesc twoExpenseStore = febExpense :: janExpense :: [] := by
      decide
    rw [predictBudget_of_sorted twoExpenseStore febExpense janExpense [] hsort]
    have h12 : ((febExpense.amount : ℚ) - (janExpense.amount : ℚ)) / (janExpense.amount : ℚ) * 100 = 12 := by
      norm_num [febExpense, janExpense]
    have h10 : (10 : ℚ) <
        ((febExpense.amount : ℚ) - (janExpense.amount : ℚ)) / (janExpense.amount : ℚ) * 100 := by
      rw [h12]; norm_num
    rw [if_pos h10, h12]
    simp [febExpense, janExpense]

/-- Closed instance of the C7 theorem: the insufficient-data branch on a
one-expense store and the band conclusions on the two-expense store. -/
theorem predict_budget_bands_witness :
    oneExpenseStore.expenses.length < 2 ∧
      predictBudget oneExpenseStore = ⟨"Insufficient data", 0, none, none⟩ ∧
      expensesByDateDesc twoExpenseStore = febExpense :: janExpense :: [] ∧
      ((predictBudget twoExpenseStore).growth =
          ((febExpense.amount : ℚ) - (janExpense.amount : ℚ)) / (janExpense.amount : ℚ) * 100 ∧
        (predictBudget twoExpenseStore).recentExpense = some febExpense.amount ∧
        (predictBudget twoExpenseStore).previousExpense = some janExpense.amount ∧
        (10 < (predictBudget twoExpenseStore).growth →
          (predictBudget twoExpenseStore).suggestion = suggestionLarge) ∧
        (5 < (predictBudget twoExpenseStore).growth ∧ (predictBudget twoExpenseStore).growth ≤ 10 →
          (predictBudget twoExpenseStore).suggestion = suggestionSmall) ∧
        ((predictBudget twoExpenseStore).growth ≤ 5 →
          (predictBudget twoExpenseStore).suggestion = suggestionMaintain)) := by
  have h1 : oneExpenseStore.expenses.length < 2 := by decide
  have h2 : expensesByDateDesc twoExpenseStore = febExpense :: janExpense :: [] := by decide
  exact ⟨h1, predict_budget_bands.1 oneExpenseStore h1, h2,
    predict_budget_bands.2.1 twoExpenseStore febExpense janExpense [] h2⟩

end TowerTech
